import Mathlib

/-!
Verification of the quote-understanding and pricing engine
(`ml/pdf_parser.py` and `ml/main.py`): a shallow embedding in Lean 4 of
the text-quality gate, the extraction fallback chain, the quote-type
classifier, the estimated-total policy of the supplier line-item
extractor, and the supplier-to-client pricing transformer
(`build_client_quote_from_supplier_parsed` / `predict_lines`).

Numbers are modelled as exact rationals; Python's `round(x, n)`
(round-half-to-even at `n` decimal places) is modelled by `pyRound`.
-/

namespace SaasCrm

/-- Python's `round` on a rational scaled to an integer:
round half to even (banker's rounding). -/
def roundHalfEven (x : ℚ) : ℤ :=
  let f := ⌊x⌋
  let frac := x - (f : ℚ)
  if frac < 1/2 then f
  else if 1/2 < frac then f + 1
  else if f % 2 = 0 then f else f + 1

/-- `10 ^ p` for an integer `p`, as a rational. -/
def pow10 (p : ℤ) : ℚ :=
  if 0 ≤ p then ((10 : ℚ) ^ p.toNat) else ((10 : ℚ) ^ (-p).toNat)⁻¹

/-- Model of Python's `round(x, p)` on exact rationals. -/
def pyRound (x : ℚ) (p : ℤ) : ℚ :=
  ((roundHalfEven (x * pow10 p) : ℚ)) / pow10 p

theorem pow10_pos (p : ℤ) : 0 < pow10 p := by
  unfold pow10
  split <;> positivity

theorem abs_roundHalfEven_sub_le (x : ℚ) : |(roundHalfEven x : ℚ) - x| ≤ 1/2 := by
  unfold roundHalfEven
  have h0 : ((⌊x⌋ : ℤ) : ℚ) ≤ x := Int.floor_le x
  have h1 : x < (⌊x⌋ : ℚ) + 1 := Int.lt_floor_add_one x
  dsimp only
  split
  · rename_i hlt
    rw [abs_le]
    constructor <;> linarith
  · split
    · rename_i hle hgt
      push_cast
      rw [abs_le]
      constructor <;> linarith
    · rename_i hle hge
      push_neg at hle hge
      have heq : x - (⌊x⌋ : ℚ) = 1/2 := le_antisymm hge hle
      split
      · rw [abs_le]
        constructor <;> linarith
      · push_cast
        rw [abs_le]
        constructor <;> linarith

theorem roundHalfEven_nonneg (x : ℚ) (hx : 0 ≤ x) : 0 ≤ roundHalfEven x := by
  unfold roundHalfEven
  have h0 : 0 ≤ ⌊x⌋ := Int.floor_nonneg.mpr hx
  dsimp only
  split
  · exact h0
  · split
    · omega
    · split <;> omega

theorem abs_pyRound_sub_le (x : ℚ) (p : ℤ) :
    |pyRound x p - x| ≤ 1/2 * (pow10 p)⁻¹ := by
  have hP : 0 < pow10 p := pow10_pos p
  have hPne : pow10 p ≠ 0 := ne_of_gt hP
  have hkey : pyRound x p - x = ((roundHalfEven (x * pow10 p) : ℚ) - x * pow10 p) / pow10 p := by
    unfold pyRound
    field_simp
    ring
  rw [hkey, abs_div, abs_of_pos hP, div_eq_mul_inv]
  exact mul_le_mul_of_nonneg_right (abs_roundHalfEven_sub_le (x * pow10 p))
    (le_of_lt (inv_pos.mpr hP))

theorem pyRound_nonneg (x : ℚ) (p : ℤ) (hx : 0 ≤ x) : 0 ≤ pyRound x p := by
  have hP : 0 < pow10 p := pow10_pos p
  unfold pyRound
  apply div_nonneg _ (le_of_lt hP)
  exact_mod_cast roundHalfEven_nonneg _ (mul_nonneg hx (le_of_lt hP))

/-! ### String utilities mirroring the Python string operations used -/

/-- Characters treated as whitespace by Python's `str.split()` / `str.strip()`. -/
def isPySpace (c : Char) : Bool :=
  c = ' ' || c = '\t' || c = '\n' || c = '\r' || c = '\x0b' || c = '\x0c'

/-- Model of Python's `str.strip()`. -/
def pyStrip (s : String) : String :=
  String.mk (((s.toList.dropWhile isPySpace).reverse.dropWhile isPySpace).reverse)

/-- `True` iff `s.strip()` is truthy in Python, i.e. `s` has a non-whitespace char. -/
def hasContent (s : String) : Bool :=
  s.toList.any (fun c => !(isPySpace c))

def listHasPref : List Char → List Char → Bool
  | [], _ => true
  | _ :: _, [] => false
  | a :: as, b :: bs => (a = b) && listHasPref as bs

def listHasSub (needle : List Char) : List Char → Bool
  | [] => needle.isEmpty
  | c :: t => listHasPref needle (c :: t) || listHasSub needle t

/-- Model of Python's `needle in hay` on strings. -/
def strContains (hay needle : String) : Bool :=
  listHasSub needle.toList hay.toList

/-- Model of Python's `str.lower()` (ASCII behaviour). -/
def strLower (s : String) : String :=
  String.mk (s.toList.map Char.toLower)

/-- Python `a or b` on an optional string field (`None` and `""` are falsy). -/
def pyOrS (a : Option String) (b : String) : String :=
  match a with
  | some s => if s = "" then b else s
  | none => b

/-- Python `a or b` on an optional numeric field (`None` and `0` are falsy). -/
def pyOrQ (a : Option ℚ) (b : ℚ) : ℚ :=
  match a with
  | some v => if v = 0 then b else v
  | none => b

/-- Model of Python's `str.split()` (split on whitespace runs, no empties),
accumulator holds the current word reversed. -/
def splitWordsAux : List Char → List Char → List (List Char)
  | [], acc => if acc.isEmpty then [] else [acc.reverse]
  | c :: cs, acc =>
    if isPySpace c then
      if acc.isEmpty then splitWordsAux cs [] else acc.reverse :: splitWordsAux cs []
    else splitWordsAux cs (c :: acc)

def splitWords (s : String) : List (List Char) :=
  splitWordsAux s.toList []

/-! ### `_is_gibberish` — the quality gate (ml/pdf_parser.py lines 80-112) -/

/-- The cleaned text: whitespace characters `' '`, `'\n'`, `'\r'`, `'\t'`
removed, as in `_is_gibberish`. -/
def cleanOf (t : String) : List Char :=
  t.toList.filter (fun c => !(c = ' ' || c = '\n' || c = '\r' || c = '\t'))

/-- Alphanumeric-character ratio over the cleaned text (0 when empty). -/
def alphaRatio (t : String) : ℚ :=
  let cl := cleanOf t
  if cl.isEmpty then 0
  else ((cl.filter Char.isAlphanum).length : ℚ) / (cl.length : ℚ)

/-- Count of extended-range characters (`127 < ord(c) < 160`) in the first
200 characters. -/
def extCount (t : String) : ℕ :=
  ((t.toList.take 200).filter (fun c => 127 < c.toNat && c.toNat < 160)).length

/-- `True` iff fewer than 30% of the first 30 whitespace-delimited tokens are
recognizable words (length > 2 and containing a letter). -/
def wordCheckFails (t : String) : Bool :=
  let ws := (splitWords t).take 30
  let alphaWords := ws.filter (fun w => w.length > 2 && w.any Char.isAlpha)
  decide ((alphaWords.length : ℚ) < (ws.length : ℚ) * (3/10))

/-- Model of `_is_gibberish` (ml/pdf_parser.py lines 80-112). -/
def isGibberish (t : String) : Bool :=
  if t = "" ∨ t.length < 20 then true
  else if cleanOf t = [] then true
  else if alphaRatio t < 1/2 then true
  else if 10 < extCount t then true
  else if wordCheckFails t = true then true
  else false

/-! ### `extract_text_from_pdf_bytes` — the extraction fallback chain
(ml/pdf_parser.py lines 115-140).

The three strategies (`_extract_text_pymupdf`, `_extract_text_pypdf`,
`_ocr_pages`) each catch their own exceptions and return a string (possibly
`""`); the chain is a pure function of those three strings. -/

def extractTextChain (mu py ocr : String) : String :=
  if hasContent mu = true ∧ isGibberish mu = false then mu
  else if hasContent mu = true ∧ isGibberish mu = true ∧ hasContent ocr = true ∧ isGibberish ocr = false then ocr
  else if hasContent py = true ∧ isGibberish py = false then py
  else if ocr ≠ "" then ocr
  else if py ≠ "" then py
  else ""

/-! ### Data model of the pricing transformer
(`build_client_quote_from_supplier_parsed`, ml/main.py lines 1440-1578, and
the `predict_lines` input normalisation, lines 1616-1670). -/

/-- A raw supplier line-item record (a JSON dict): every field optional,
with the alternative `costUnit`/`lineTotal` namings accepted by
`predict_lines`. -/
structure RawLine where
  description : Option String := none
  desc : Option String := none
  qty : Option ℚ := none
  quantity : Option ℚ := none
  unit_price : Option ℚ := none
  costUnit : Option ℚ := none
  total : Option ℚ := none
  lineTotal : Option ℚ := none
deriving DecidableEq

/-- The shape of `parse_quote_lines_from_text` output consumed by the
builder: `currency` and `lines`. -/
structure SupplierParsed where
  currency : Option String := none
  lines : List RawLine := []
deriving DecidableEq

/-- A coerced supplier line as built at ml/main.py lines 1483-1492. -/
structure BaseItem where
  description : String
  qty : ℚ
  unit : ℚ
  total : ℚ
deriving DecidableEq

/-- One output line of the client-facing quote. -/
structure ClientLine where
  description : String
  qty : ℚ
  unit_price : ℚ
  total : ℚ
  unit_price_marked_up : ℚ
  total_marked_up : ℚ
deriving DecidableEq

/-- The client-facing quote (output shape of the builder). -/
structure ClientQuote where
  currency : Option String
  markup_percent : ℚ
  vat_percent : ℚ
  supplier_delivery_total : ℚ
  client_delivery_charge : Option ℚ
  lines : List ClientLine
  subtotal : ℚ
  vat_amount : ℚ
  grand_total : ℚ
deriving DecidableEq

/-- Per-line coercion of a raw record, ml/main.py lines 1484-1487:
`desc = (ln.get("description") or "").strip()`,
`qty = float(ln.get("qty") or ln.get("quantity") or 1)`,
`unit = float(ln.get("unit_price") or 0.0)`,
`total = float(ln.get("total") or (qty * unit))`. -/
def coerceLine (ln : RawLine) : BaseItem :=
  let d := pyStrip (pyOrS ln.description "")
  let q := pyOrQ ln.qty (pyOrQ ln.quantity 1)
  let u := pyOrQ ln.unit_price 0
  let t := pyOrQ ln.total (q * u)
  ⟨d, q, u, t⟩

/-- `"delivery" in desc.lower() or "shipping" in desc.lower()` guarded by
`bool(desc)` (ml/main.py line 1488). -/
def isDeliveryDesc (d : String) : Bool :=
  (d ≠ "" : Bool) && (strContains (strLower d) "delivery" || strContains (strLower d) "shipping")

/-- `supplier_delivery_total`: sum of `max(0.0, total)` over
delivery/shipping-labeled lines (ml/main.py lines 1488-1490). -/
def supplierDeliveryTotalOf (lns : List RawLine) : ℚ :=
  ((((lns.map coerceLine).filter (fun b => isDeliveryDesc b.description)).map
    (fun b => max 0 b.total)).sum)

/-- `base_items`: the non-delivery lines (ml/main.py lines 1491-1492). -/
def baseItemsOf (lns : List RawLine) : List BaseItem :=
  (lns.map coerceLine).filter (fun b => !(isDeliveryDesc b.description))

/-- Per-line delivery allocations (ml/main.py lines 1494-1502):
`round(supplier_delivery_total * (bi.total / total_of_items), round_to)`
for each base item when amalgamating, else zeros. -/
def deliveryAllocations (amalgamate : Bool) (d : ℚ) (items : List BaseItem) (p : ℤ) :
    List ℚ :=
  let totalOfItems := (items.map (fun b => b.total)).sum
  if amalgamate = true ∧ 0 < d ∧ 0 < totalOfItems then
    items.map (fun bi => pyRound (d * (bi.total / totalOfItems)) p)
  else
    items.map (fun _ => 0)

/-- Marked-up client line for a base item and its delivery allocation
(ml/main.py lines 1505-1528). -/
def markedLine (markup : ℚ) (p : ℤ) (bi : BaseItem) (alloc : ℚ) : ClientLine :=
  let effTotal := bi.total + alloc
  let effUnit := if bi.qty ≠ 0 then effTotal / bi.qty else bi.unit
  let uplift := 1 + markup / 100
  let um := pyRound (effUnit * uplift) p
  let tm := pyRound (um * bi.qty) p
  ⟨bi.description, bi.qty, pyRound bi.unit p, pyRound bi.total p, um, tm⟩

/-- The non-amalgamated supplier "Delivery" line, when present
(ml/main.py lines 1532-1546). -/
def deliveryLineExtra (amalgamate markupDelivery : Bool) (markup d : ℚ) (p : ℤ) :
    List ClientLine :=
  if amalgamate = false ∧ 0 < d then
    let uplift := if markupDelivery then 1 + markup / 100 else 1
    let um := pyRound (d * uplift) p
    [⟨"Delivery", 1, pyRound d p, pyRound d p, um, um⟩]
  else []

/-- The optional end-client delivery line (ml/main.py lines 1548-1562). -/
def clientDeliveryExtra (cd : Option ℚ) (cdd : Option String) (p : ℤ) : List ClientLine :=
  match cd with
  | some v =>
    if 0 < v then
      [⟨pyOrS cdd "Delivery", 1, 0, 0, pyRound v p, pyRound v p⟩]
    else []
  | none => []

/-- `client_delivery_added` (ml/main.py lines 1549-1562). -/
def clientDeliveryCharge (cd : Option ℚ) (p : ℤ) : Option ℚ :=
  match cd with
  | some v => if 0 < v then some (pyRound v p) else none
  | none => none

/-- Model of `build_client_quote_from_supplier_parsed`
(ml/main.py lines 1440-1578). -/
def buildClientQuote (parsed : SupplierParsed) (markup_percent vat_percent : ℚ)
    (markup_delivery amalgamate_delivery : Bool) (client_delivery_gbp : Option ℚ)
    (client_delivery_description : Option String) (round_to : ℤ) : ClientQuote :=
  let d := supplierDeliveryTotalOf parsed.lines
  let items := baseItemsOf parsed.lines
  let allocs := deliveryAllocations amalgamate_delivery d items round_to
  let mainLines := (items.zip allocs).map (fun pr => markedLine markup_percent round_to pr.1 pr.2)
  let allLines := mainLines ++ deliveryLineExtra amalgamate_delivery markup_delivery markup_percent d round_to
      ++ clientDeliveryExtra client_delivery_gbp client_delivery_description round_to
  let subtotal := pyRound ((allLines.map (fun l => l.total_marked_up)).sum) round_to
  let vat := if 0 < vat_percent then pyRound (subtotal * (vat_percent / 100)) round_to else 0
  let grand := pyRound (subtotal + vat) round_to
  { currency := parsed.currency
    markup_percent := markup_percent
    vat_percent := vat_percent
    supplier_delivery_total := pyRound d round_to
    client_delivery_charge := clientDeliveryCharge client_delivery_gbp round_to
    lines := allLines
    subtotal := subtotal
    vat_amount := vat
    grand_total := grand }

/-! ### Estimated-total policy of `parse_quote_lines_from_text`
(ml/pdf_parser.py lines 613-638).

The regex passes that build the `lines` and `candidates` values are
abstracted; the policy below is the exact tail of the function, as a
function of those two values. -/

/-- An extracted supplier line item (always carries all four fields). -/
structure SLine where
  description : String
  qty : ℚ
  unit_price : ℚ
  total : ℚ
deriving DecidableEq

/-- `estimated_total` / `confidence` / `detected_totals` of the parse result. -/
structure ParseEstimate where
  estimated_total : Option ℚ
  confidence : ℚ
  detected_totals : List ℚ
deriving DecidableEq

/-- `sum(line.get("total", 0) for line in lines)`. -/
def calcTotal (lines : List SLine) : ℚ :=
  (lines.map (fun l => l.total)).sum

/-- Python's `max` over a non-empty list (0 on the empty list, where the
code never calls it). -/
def pyMax : List ℚ → ℚ
  | [] => 0
  | h :: t => t.foldl max h

/-- The estimated-total policy (ml/pdf_parser.py lines 613-638): with line
items, use their sum if positive (confidence 0.8) and append it to the
detected candidates; with no line items but candidates, use the maximum
candidate (confidence 0.35 for one candidate, 0.55 for several); else
null/0.0. -/
def estimatePolicy (lines : List SLine) (candidates : List ℚ) : ParseEstimate :=
  if lines ≠ [] then
    let ct := calcTotal lines
    { estimated_total := if 0 < ct then some ct else none
      confidence := if 0 < ct then (0.8 : ℚ) else 0
      detected_totals := if candidates ≠ [] then candidates ++ [ct] else candidates }
  else if candidates ≠ [] then
    { estimated_total := some (pyMax candidates)
      confidence := if candidates.length = 1 then (0.35 : ℚ) else (0.55 : ℚ)
      detected_totals := candidates }
  else
    { estimated_total := none, confidence := 0, detected_totals := candidates }

/-! ### `determine_quote_type` — the quote-type classifier
(ml/pdf_parser.py lines 840-906).

Regex matching is abstracted as an oracle `m : String → Bool` telling which
pattern strings match the document text; the indicator tables, scoring and
decision rule are modelled exactly. -/

def supplierIndicators : List String :=
  ["supplier|vendor|invoice\\s+from|quote\\s+from",
   "remit\\s+to|payment\\s+terms|pay\\s+within|net\\s+\\d+\\s+days",
   "account\\s+number|sort\\s+code|bank\\s+details",
   "order\\s+number|purchase\\s+order",
   "quote\\s+reference.*[A-Z]\x7b2,\x7d\\d+",
   "supplies?\\s+ltd|materials?\\s+ltd|joinery\\s+supplies",
   "terms:.*net|payment.*due"]

def clientIndicators : List String :=
  ["ESTIMATE|QUOTATION|PROPOSAL",
   "Reference\\s*[A-Za-z0-9]+.*Estimate\\s+Number",
   "Date\\s+of\\s+Estimate|Validity\\s*\\d+\\s+days",
   "dear\\s+(?:mr|mrs|ms|miss)",
   "thank\\s+you\\s+for\\s+your\\s+enquiry",
   "we\\s+are\\s+pleased\\s+to\\s+quote",
   "project\\s+requirements|questionnaire",
   "terms\\s+and\\s+conditions\\s+apply",
   "VAT\\s+@\\s+\\d+%.*Total",
   "Item\\s+Description\\s+Number\\s+Width\\s+Height",
   "specialists\\s+in.*joinery"]

/-- One point per matching indicator pattern. -/
def countMatches (m : String → Bool) (pats : List String) : ℕ :=
  (pats.filter m).length

/-- Supplier score: indicator matches plus the +2/+1 strong-indicator
bonuses (ml/pdf_parser.py lines 878-899). -/
def supplierScore (m : String → Bool) : ℕ :=
  countMatches m supplierIndicators
    + (if m "Item\\s+Description\\s+Qty\\s+Unit\\s+Price" then 2 else 0)
    + (if m "Subtotal.*VAT.*Total" then 1 else 0)

/-- Client score: indicator matches plus the +3/+2 strong-indicator
bonuses (ml/pdf_parser.py lines 885-893). -/
def clientScore (m : String → Bool) : ℕ :=
  countMatches m clientIndicators
    + (if m "ESTIMATE.*Reference.*Windows" then 3 else 0)
    + (if m "Specialists\\s+in.*Joinery" then 2 else 0)

/-- Model of `determine_quote_type` (ml/pdf_parser.py lines 840-906): the
higher score wins; ties (including the all-zero case) and empty text give
"unknown". -/
def determineQuoteType (text : String) (m : String → Bool) : String :=
  if text = "" then "unknown"
  else if supplierScore m < clientScore m then "client"
  else if clientScore m < supplierScore m then "supplier"
  else "unknown"

/-! ### `predict_lines` input normalisation (ml/main.py lines 1616-1670) -/

/-- `qty` normalisation in `predict_lines` (ml/main.py lines 1621-1627):
`qty` if present else `quantity` else 1, then clamped to 1 when `<= 0`.
Note the `is not None` checks: a present 0 is kept (then clamped). -/
def normQty (ln : RawLine) : ℚ :=
  let q0 : ℚ :=
    match ln.qty with
    | some v => v
    | none => match ln.quantity with
      | some v => v
      | none => 1
  if q0 ≤ 0 then 1 else q0

/-- `predict_lines` per-line normalisation (ml/main.py lines 1617-1655):
accept `costUnit`/`lineTotal` in place of `unit_price`/`total`, back-compute
the missing one of unit/total from the other, and default missing values
to 0. -/
def normLine (ln : RawLine) : SLine :=
  let d := pyStrip (pyOrS ln.description (pyOrS ln.desc "Item"))
  let q := normQty ln
  let u0 : Option ℚ :=
    match ln.unit_price with
    | some v => some v
    | none => ln.costUnit
  let t0 : Option ℚ :=
    match ln.total with
    | some v => some v
    | none => ln.lineTotal
  let u1 : Option ℚ :=
    match u0, t0 with
    | none, some t => if q ≠ 0 then some (t / q) else none
    | _, _ => u0
  let t1 : Option ℚ :=
    match t0, u1 with
    | none, some u => if q ≠ 0 then some (u * q) else none
    | _, _ => t0
  ⟨d, q, u1.getD 0, t1.getD 0⟩

/-- A normalised line re-packaged as the dict shape handed to the builder
(ml/main.py lines 1650-1660). -/
def slineToRaw (s : SLine) : RawLine :=
  { description := some s.description
    qty := some s.qty
    unit_price := some s.unit_price
    total := some s.total }

/-- Model of the `/predict-lines` endpoint body (ml/main.py lines
1616-1670): normalise the input lines, then run the builder. -/
def predictLinesQuote (lines : List RawLine) (currency : Option String)
    (markupPercent vatPercent : ℚ) (markupDelivery amalgamateDelivery : Bool)
    (clientDeliveryGBP : Option ℚ) (clientDeliveryDescription : Option String)
    (roundTo : ℤ) : ClientQuote :=
  buildClientQuote
    { currency := currency, lines := (lines.map normLine).map slineToRaw }
    markupPercent vatPercent markupDelivery amalgamateDelivery
    clientDeliveryGBP clientDeliveryDescription roundTo

/-! ### Shared helper lemmas -/

theorem hasContent_ne_empty {s : String} (h : hasContent s = true) : s ≠ "" := by
  intro he
  subst he
  simp [hasContent] at h

theorem abs_sum_map_sub_le {α : Type*} (l : List α) (f g : α → ℚ) (c : ℚ)
    (h : ∀ a ∈ l, |f a - g a| ≤ c) :
    |(l.map f).sum - (l.map g).sum| ≤ (l.length : ℚ) * c := by
  induction l with
  | nil => simp
  | cons a t ih =>
    simp only [List.map_cons, List.sum_cons, List.length_cons]
    have h1 : |f a - g a| ≤ c := h a (List.mem_cons_self a t)
    have h2 := ih (fun x hx => h x (List.mem_cons_of_mem a hx))
    have h3 : |f a + (t.map f).sum - (g a + (t.map g).sum)|
        ≤ |f a - g a| + |(t.map f).sum - (t.map g).sum| := by
      have := abs_add (f a - g a) ((t.map f).sum - (t.map g).sum)
      have he : f a - g a + ((t.map f).sum - (t.map g).sum)
          = f a + (t.map f).sum - (g a + (t.map g).sum) := by ring
      rw [he] at this
      exact this
    push_cast
    calc |f a + (t.map f).sum - (g a + (t.map g).sum)|
        ≤ |f a - g a| + |(t.map f).sum - (t.map g).sum| := h3
      _ ≤ c + (t.length : ℚ) * c := add_le_add h1 h2
      _ = ((t.length : ℚ) + 1) * c := by ring

theorem supplierDeliveryTotalOf_nonneg (lns : List RawLine) :
    0 ≤ supplierDeliveryTotalOf lns := by
  unfold supplierDeliveryTotalOf
  apply List.sum_nonneg
  intro x hx
  obtain ⟨b, _, rfl⟩ := List.mem_map.mp hx
  exact le_max_left 0 b.total

/-! ### Concrete inputs used by the claim theorems -/

/-- Supplier line A of the spec's concrete scenario (§8). -/
def lineA : RawLine :=
  { description := some "A", qty := some 1, unit_price := some 100, total := some 100 }

/-- Supplier line B of the spec's concrete scenario (§8). -/
def lineB : RawLine :=
  { description := some "B", qty := some 1, unit_price := some 200, total := some 200 }

/-- The delivery-labeled line of the spec's concrete scenario (§8). -/
def lineDelivery : RawLine :=
  { description := some "Delivery", qty := some 1, unit_price := some 30, total := some 30 }

/-- The concrete-scenario parse result. -/
def scenarioParsed : SupplierParsed :=
  { currency := some "GBP", lines := [lineA, lineB, lineDelivery] }

/-- The concrete-scenario client quote: markup 20, VAT 20, amalgamate
delivery, precision 2. -/
def scenarioQuote : ClientQuote :=
  buildClientQuote scenarioParsed 20 20 false true none none 2

/-! ### Claims -/

/-- C1: For supplier product lines A (qty 1, unit 100, total 100) and B
(qty 1, unit 200, total 200) plus a delivery line with total 30, the
transformer with markup 20%, VAT 20%, amalgamated delivery and precision 2
allocates delivery 10.00 to A and 20.00 to B, marks the unit prices up to
132.00 and 264.00, and yields subtotal 396.00, VAT 79.20, grand total
475.20. -/
theorem C1_concrete_scenario :
    deliveryAllocations true 30 (baseItemsOf scenarioParsed.lines) 2 = [10, 20] ∧
    scenarioQuote.lines.map (fun l => l.unit_price_marked_up) = [132, 264] ∧
    scenarioQuote.subtotal = 396 ∧
    scenarioQuote.vat_amount = (79.2 : ℚ) ∧
    scenarioQuote.grand_total = (475.2 : ℚ) := by
  refine ⟨?_, ?_, ?_, ?_, ?_⟩ <;> with_unfolding_all rfl

/-- C2: For every supplier parse result and configuration the transformer
output satisfies `grand_total = round(subtotal + vat_amount, p)`, with
`vat_amount = round(subtotal * vat_percent/100, p)` when `vat_percent > 0`
and `vat_amount = 0` when `vat_percent <= 0`. -/
theorem C2_vat_identity (parsed : SupplierParsed) (mp vp : ℚ) (md ad : Bool)
    (cd : Option ℚ) (cdd : Option String) (p : ℤ) :
    (buildClientQuote parsed mp vp md ad cd cdd p).grand_total
        = pyRound ((buildClientQuote parsed mp vp md ad cd cdd p).subtotal
            + (buildClientQuote parsed mp vp md ad cd cdd p).vat_amount) p ∧
    (0 < vp → (buildClientQuote parsed mp vp md ad cd cdd p).vat_amount
        = pyRound ((buildClientQuote parsed mp vp md ad cd cdd p).subtotal * (vp / 100)) p) ∧
    (vp ≤ 0 → (buildClientQuote parsed mp vp md ad cd cdd p).vat_amount = 0) := by
  refine ⟨?_, ?_, ?_⟩
  · simp only [buildClientQuote]
  · intro h
    simp only [buildClientQuote, if_pos h]
  · intro h
    simp only [buildClientQuote, if_neg (not_lt.mpr h)]

/-- C2 witness: the identity instantiated at the concrete scenario (VAT 20
for the positive-VAT part, VAT 0 for the zero-VAT part). -/
theorem C2_vat_identity_witness :
    scenarioQuote.grand_total = pyRound (scenarioQuote.subtotal + scenarioQuote.vat_amount) 2 ∧
    scenarioQuote.vat_amount = pyRound (scenarioQuote.subtotal * ((20 : ℚ) / 100)) 2 ∧
    (buildClientQuote scenarioParsed 20 0 false true none none 2).vat_amount = 0 := by
  have h1 := C2_vat_identity scenarioParsed 20 20 false true none none 2
  have h2 := C2_vat_identity scenarioParsed 20 0 false true none none 2
  exact ⟨h1.1, h1.2.1 (by norm_num), h2.2.2 (by norm_num)⟩

/-- C10: The transformer's `supplier_delivery_total` is the rounded sum of
`max(0, total)` over delivery/shipping-labeled lines, hence non-negative;
a delivery line with a negative total contributes nothing to it. -/
theorem C10_supplier_delivery_nonneg (parsed : SupplierParsed) (mp vp : ℚ)
    (md ad : Bool) (cd : Option ℚ) (cdd : Option String) (p : ℤ) :
    (buildClientQuote parsed mp vp md ad cd cdd p).supplier_delivery_total
        = pyRound (supplierDeliveryTotalOf parsed.lines) p ∧
    0 ≤ (buildClientQuote parsed mp vp md ad cd cdd p).supplier_delivery_total := by
  constructor
  · simp only [buildClientQuote]
  · have h : (buildClientQuote parsed mp vp md ad cd cdd p).supplier_delivery_total
        = pyRound (supplierDeliveryTotalOf parsed.lines) p := by
      simp only [buildClientQuote]
    rw [h]
    exact pyRound_nonneg _ p (supplierDeliveryTotalOf_nonneg parsed.lines)

/-- Seven identical product lines with total 1 each: with delivery total
0.03 every proportional share 0.03/7 rounds to 0.00 at precision 2. -/
def sevenUnitItems : List BaseItem :=
  List.replicate 7 ⟨"item", 1, 1, 1⟩

/-- C3 counterexample: with seven product lines of total 1 and supplier
delivery total 0.03 (amalgamating, precision 2), every per-line allocation
rounds to 0, so the allocation sum differs from the delivery total by
0.03 > 10^-2: conservation within one unit of the precision fails. -/
theorem C3_counterexample :
    0 < (0.03 : ℚ) ∧
    0 < ((sevenUnitItems.map (fun b => b.total)).sum) ∧
    (deliveryAllocations true (0.03 : ℚ) sevenUnitItems 2).sum = 0 ∧
    ¬(|(deliveryAllocations true (0.03 : ℚ) sevenUnitItems 2).sum - (0.03 : ℚ)|
        ≤ (pow10 2)⁻¹) := by
  refine ⟨by norm_num, ?_, ?_, ?_⟩
  · exact of_decide_eq_true (by with_unfolding_all rfl)
  · with_unfolding_all rfl
  · exact of_decide_eq_true (by with_unfolding_all rfl)

/-- C3 amended: when the transformer amalgamates delivery (delivery total
and product-total sum both positive), the sum of the per-line delivery
allocations equals `supplier_delivery_total` up to the accumulated
rounding tolerance: at most half an ulp of the precision per product
line. -/
theorem C3_allocation_conservation (items : List BaseItem) (d : ℚ) (p : ℤ)
    (hd : 0 < d) (ht : 0 < (items.map (fun b => b.total)).sum) :
    |(deliveryAllocations true d items p).sum - d|
      ≤ (items.length : ℚ) * (1/2 * (pow10 p)⁻¹) := by
  unfold deliveryAllocations
  rw [if_pos ⟨rfl, hd, ht⟩]
  set T := (items.map (fun b => b.total)).sum with hT
  have hTne : T ≠ 0 := ne_of_gt ht
  have hexact : (items.map (fun bi => d * (bi.total / T))).sum = d := by
    have hfe : (fun bi : BaseItem => d * (bi.total / T))
        = fun bi : BaseItem => (d / T) * bi.total := by
      funext bi
      ring
    rw [hfe, List.sum_map_mul_left, ← hT, div_mul_cancel₀ d hTne]
  have hbound := abs_sum_map_sub_le items
    (fun bi => pyRound (d * (bi.total / T)) p)
    (fun bi => d * (bi.total / T))
    (1/2 * (pow10 p)⁻¹)
    (fun bi _ => abs_pyRound_sub_le (d * (bi.total / T)) p)
  rw [hexact] at hbound
  exact hbound

/-- C3 witness: the amended bound instantiated at the counterexample
items (seven unit lines, delivery 0.03, precision 2). -/
theorem C3_allocation_conservation_witness :
    |(deliveryAllocations true (0.03 : ℚ) sevenUnitItems 2).sum - (0.03 : ℚ)|
      ≤ (sevenUnitItems.length : ℚ) * (1/2 * (pow10 2)⁻¹) :=
  C3_allocation_conservation sevenUnitItems (0.03 : ℚ) 2 (by norm_num)
    (of_decide_eq_true (by with_unfolding_all rfl))

/-- An extracted line with total 0, as produced e.g. for the text
`"door £0.00"` (freeform pattern `Description £Price`). -/
def zeroTotalLine : SLine := ⟨"door", 1, 0, 0⟩

/-- C4 counterexample: on a non-empty lines list whose totals sum to 0
(reachable from the input text `"door £0.00"`), the extractor returns
`estimated_total = None` and `confidence = 0.0`, not the rounded sum with
confidence 0.8: the `calculated_total > 0` guard (ml/pdf_parser.py line
620) makes the claim fail. -/
theorem C4_counterexample :
    ([zeroTotalLine] ≠ ([] : List SLine)) ∧
    ¬((estimatePolicy [zeroTotalLine] []).estimated_total
          = some (pyRound (calcTotal [zeroTotalLine]) 2) ∧
        (estimatePolicy [zeroTotalLine] []).confidence = (0.8 : ℚ)) ∧
    (estimatePolicy [zeroTotalLine] []).estimated_total = none ∧
    (estimatePolicy [zeroTotalLine] []).confidence = 0 := by
  refine ⟨by simp, ?_, ?_, ?_⟩
  · exact of_decide_eq_true (by with_unfolding_all rfl)
  · with_unfolding_all rfl
  · with_unfolding_all rfl

/-- C4 amended: if the extractor returns a non-empty lines list whose
totals sum to a positive value, then `estimated_total` is exactly that sum
(the code applies no rounding; the sum equals its rounding whenever each
extracted total has at most `precision` decimals) and `confidence` is
0.8. -/
theorem C4_lines_estimate (lines : List SLine) (candidates : List ℚ)
    (hne : lines ≠ []) (hpos : 0 < calcTotal lines) :
    (estimatePolicy lines candidates).estimated_total = some (calcTotal lines) ∧
    (estimatePolicy lines candidates).confidence = (0.8 : ℚ) := by
  refine ⟨?_, ?_⟩ <;> simp [estimatePolicy, hne, hpos]

/-- C4 witness: the amended claim instantiated at a one-line list with
total 100. -/
theorem C4_lines_estimate_witness :
    (estimatePolicy [⟨"door", 1, 100, 100⟩] []).estimated_total
        = some (calcTotal [⟨"door", 1, 100, 100⟩]) ∧
    (estimatePolicy [⟨"door", 1, 100, 100⟩] []).confidence = (0.8 : ℚ) :=
  C4_lines_estimate [⟨"door", 1, 100, 100⟩] [] (by simp)
    (of_decide_eq_true (by with_unfolding_all rfl))

/-- C5: with no extracted line items, `estimated_total` is the maximum
detected candidate with confidence 0.35 (one candidate) or 0.55 (several);
with no line items and no candidates, `estimated_total` is null and
confidence 0. -/
theorem C5_fallback_estimate (candidates : List ℚ) :
    (candidates ≠ [] →
      (estimatePolicy [] candidates).estimated_total = some (pyMax candidates) ∧
      (estimatePolicy [] candidates).confidence
          = (if candidates.length = 1 then (0.35 : ℚ) else (0.55 : ℚ))) ∧
    (candidates = [] →
      (estimatePolicy [] candidates).estimated_total = none ∧
      (estimatePolicy [] candidates).confidence = 0) := by
  constructor
  · intro h
    unfold estimatePolicy
    rw [if_neg (by simp), if_pos h]
    exact ⟨rfl, rfl⟩
  · intro h
    subst h
    unfold estimatePolicy
    rw [if_neg (by simp), if_neg (by simp)]
    exact ⟨rfl, rfl⟩

/-- C5 witness: the fallback policy instantiated at a single candidate 500
and at the empty candidate list. -/
theorem C5_fallback_estimate_witness :
    ((estimatePolicy [] [(500 : ℚ)]).estimated_total = some (pyMax [(500 : ℚ)]) ∧
      (estimatePolicy [] [(500 : ℚ)]).confidence
          = (if ([(500 : ℚ)]).length = 1 then (0.35 : ℚ) else (0.55 : ℚ))) ∧
    ((estimatePolicy [] ([] : List ℚ)).estimated_total = none ∧
      (estimatePolicy [] ([] : List ℚ)).confidence = 0) :=
  ⟨(C5_fallback_estimate [(500 : ℚ)]).1 (by simp),
   (C5_fallback_estimate ([] : List ℚ)).2 rfl⟩

/-- C6: a line record using the `costUnit`/`lineTotal` field names is
normalised by `predict_lines` identically to the same record using
`unit_price`/`total`, so the resulting client-facing quote is the same for
every configuration and every surrounding line list. -/
theorem C6_alt_field_names (dsc : String) (q c t : ℚ) (rest : List RawLine)
    (cur : Option String) (mp vp : ℚ) (md ad : Bool) (cd : Option ℚ)
    (cdd : Option String) (p : ℤ) :
    predictLinesQuote
        (({ description := some dsc, qty := some q,
            costUnit := some c, lineTotal := some t } : RawLine) :: rest)
        cur mp vp md ad cd cdd p
      = predictLinesQuote
        (({ description := some dsc, qty := some q,
            unit_price := some c, total := some t } : RawLine) :: rest)
        cur mp vp md ad cd cdd p := rfl

/-- A 25-character non-empty string rejected by the quality gate (no
alphanumeric characters at all). -/
def gibberishText : String := "!!!!!!!!!!!!!!!!!!!!!!!!!"

/-- C7 counterexample: when the primary (PyMuPDF) strategy yields
non-empty gibberish and both the PyPDF2 fallback and OCR yield empty
output, the chain returns `""` even though not every strategy produced
empty output — the gibberish text is overwritten at the PyPDF2 step
(ml/pdf_parser.py line 134) and lost. -/
theorem C7_counterexample :
    hasContent gibberishText = true ∧
    gibberishText ≠ "" ∧
    isGibberish gibberishText = true ∧
    extractTextChain gibberishText "" "" = "" := by
  refine ⟨?_, by simp [gibberishText], ?_, ?_⟩ <;> with_unfolding_all rfl

/-- C7 amended: the extraction chain is a total function of the three
strategy outputs and returns `""` exactly when the PyPDF2 and OCR outputs
are empty and the PyMuPDF output is whitespace-only or gibberish; a
non-empty gibberish PyMuPDF result is not preserved in that case. -/
theorem C7_chain_empty_iff (mu py ocr : String) :
    extractTextChain mu py ocr = "" ↔
      (py = "" ∧ ocr = "" ∧ (hasContent mu = false ∨ isGibberish mu = true)) := by
  unfold extractTextChain
  split_ifs with h1 h2 h3 h4 h5
  · apply iff_of_false (hasContent_ne_empty h1.1)
    rintro ⟨-, -, hmu | hmu⟩
    · rw [h1.1] at hmu
      exact absurd hmu (by decide)
    · rw [h1.2] at hmu
      exact absurd hmu (by decide)
  · apply iff_of_false (hasContent_ne_empty h2.2.2.1)
    rintro ⟨-, hocr, -⟩
    exact hasContent_ne_empty h2.2.2.1 hocr
  · apply iff_of_false (hasContent_ne_empty h3.1)
    rintro ⟨hpy, -, -⟩
    exact hasContent_ne_empty h3.1 hpy
  · apply iff_of_false h4
    rintro ⟨-, hocr, -⟩
    exact h4 hocr
  · apply iff_of_false h5
    rintro ⟨hpy, -, -⟩
    exact h5 hpy
  · apply iff_of_true rfl
    push_neg at h4 h5
    refine ⟨h5, h4, ?_⟩
    cases hgib : isGibberish mu with
    | true => exact Or.inr rfl
    | false =>
      cases hhc : hasContent mu with
      | false => exact Or.inl rfl
      | true => exact absurd ⟨hhc, hgib⟩ h1

/-- A text whose cleaned form has alphanumeric ratio exactly 0.4. -/
def ratioFortyText : String := "ab!!! ab!!! ab!!! ab!!!"

/-- A text whose cleaned form has alphanumeric ratio exactly 0.6 but which
the gate rejects: none of its tokens count as recognizable words (no token
contains a letter), so the word check fails. -/
def ratioSixtyRejected : String := "11!!1 11!!1 11!!1 11!!1"

/-- A text with ratio exactly 0.6 that passes every gate condition. -/
def ratioSixtyAccepted : String := "abc!! abc!! abc!! abc!!"

/-- C8 counterexample: a text with cleaned alphanumeric ratio exactly 0.6
that the gate nevertheless rejects (its word check fails), refuting
"ratio 0.6 implies quality_ok". -/
theorem C8_counterexample :
    alphaRatio ratioSixtyRejected = (3 : ℚ)/5 ∧
    isGibberish ratioSixtyRejected = true := by
  constructor <;> with_unfolding_all rfl

/-- C8 amended: a text with cleaned alphanumeric ratio exactly 0.4 is
always rejected; a text with ratio exactly 0.6 passes the ratio criterion
and is accepted if and only if it also has length at least 20, at most 10
extended-range characters in its first 200 characters, and enough
recognizable words. -/
theorem C8_ratio_boundary (t1 t2 : String)
    (h1 : alphaRatio t1 = (2 : ℚ)/5) (h2 : alphaRatio t2 = (3 : ℚ)/5) :
    isGibberish t1 = true ∧
    (isGibberish t2 = false ↔
      (¬(t2 = "" ∨ t2.length < 20) ∧ extCount t2 ≤ 10 ∧ wordCheckFails t2 = false)) := by
  constructor
  · unfold isGibberish
    split_ifs with hl hc hr
    · rfl
    · rfl
    · rfl
    all_goals
      exfalso
      rw [h1] at hr
      norm_num at hr
  · have hclean : ¬(cleanOf t2 = []) := by
      intro hc
      rw [alphaRatio, hc] at h2
      norm_num at h2
    have hratio : ¬(alphaRatio t2 < 1/2) := by
      rw [h2]
      norm_num
    unfold isGibberish
    rw [if_neg hclean, if_neg hratio]
    split_ifs with hl he hw
    · exact iff_of_false (by decide) (fun h => h.1 hl)
    · exact iff_of_false (by decide) (fun h => absurd h.2.1 (not_le.mpr he))
    · refine iff_of_false (by decide) (fun h => ?_)
      rw [h.2.2] at hw
      exact absurd hw (by decide)
    · have hww : wordCheckFails t2 = false := by
        cases hww2 : wordCheckFails t2 with
        | false => rfl
        | true => exact absurd hww2 hw
      exact iff_of_true rfl ⟨hl, not_lt.mp he, hww⟩

/-- C8 witness: the boundary theorem instantiated at a ratio-0.4 text
(rejected) and a ratio-0.6 text that meets the remaining conditions
(accepted). -/
theorem C8_ratio_boundary_witness :
    isGibberish ratioFortyText = true ∧ isGibberish ratioSixtyAccepted = false := by
  have h := C8_ratio_boundary ratioFortyText ratioSixtyAccepted
    (by with_unfolding_all rfl) (by with_unfolding_all rfl)
  refine ⟨h.1, h.2.mpr ⟨?_, ?_, ?_⟩⟩
  · exact of_decide_eq_true (by with_unfolding_all rfl)
  · exact of_decide_eq_true (by with_unfolding_all rfl)
  · with_unfolding_all rfl

/-- C9: the classifier returns "client" when the client score is strictly
higher, "supplier" when the supplier score is strictly higher, and
"unknown" when both scores are zero — in particular any text matching no
indicator pattern is classified "unknown". -/
theorem C9_classifier_decision (text : String) (m : String → Bool) :
    (text ≠ "" → supplierScore m < clientScore m →
      determineQuoteType text m = "client") ∧
    (text ≠ "" → clientScore m < supplierScore m →
      determineQuoteType text m = "supplier") ∧
    (supplierScore m = 0 ∧ clientScore m = 0 →
      determineQuoteType text m = "unknown") := by
  refine ⟨?_, ?_, ?_⟩
  · intro hne hlt
    unfold determineQuoteType
    rw [if_neg hne, if_pos hlt]
  · intro hne hlt
    unfold determineQuoteType
    rw [if_neg hne, if_neg (not_lt.mpr (le_of_lt hlt)), if_pos hlt]
  · rintro ⟨hs, hc⟩
    unfold determineQuoteType
    split_ifs with h1 h2 h3
    · rfl
    · omega
    · omega
    · rfl

/-- An oracle matching exactly the first client indicator pattern. -/
def onlyEstimateMatcher : String → Bool :=
  fun pat => pat == "ESTIMATE|QUOTATION|PROPOSAL"

/-- C9 witness: the decision rule instantiated at a non-empty text with a
matcher hitting one client indicator (classified "client") and at the
all-false matcher (classified "unknown"). -/
theorem C9_classifier_decision_witness :
    determineQuoteType "some text" onlyEstimateMatcher = "client" ∧
    determineQuoteType "some text" (fun _ => false) = "unknown" := by
  constructor
  · exact (C9_classifier_decision "some text" onlyEstimateMatcher).1
      (by simp) (of_decide_eq_true (by with_unfolding_all rfl))
  · exact (C9_classifier_decision "some text" (fun _ => false)).2.2
      ⟨by with_unfolding_all rfl, by with_unfolding_all rfl⟩

end SaasCrm
